import Mathlib

/-!
# Verification of the streaming JSON parsing engine (json_parser.py)

Shallow embedding of `src/json_parser.py`. Text is modelled as `List Char`,
indices as `Nat`, Python dicts as insertion-ordered association lists with
overwrite-on-assignment, and while-loops as fuel recursion where the fuel
supplied at every entry point (`length + 1`) exceeds the number of loop
iterations the Python loops can perform (each iteration advances the index
by at least one character).

Two models are developed.

The committed `_skip_ws` contains only a `while` loop that advances a local
variable; the function body has no `return` statement, so Python returns
`None`, and the comparison `i >= len(s)` performed immediately after every
`i = self._skip_ws(s, i)` assignment raises `TypeError`. The *faithful*
model (`..._py` names) reproduces this: `skip_ws_py` returns `none`, and the
surrounding code is threaded through `Except PyErr` so that the comparison
raises.

The *documented* model uses `skip_ws`, the same loop returning the reached
index, which is the behaviour `_skip_ws`'s own docstring ("Returns the index
of the first non-whitespace character") and the repository's unit test
`test_skip_ws_skips_leading_whitespace` specify. Every other definition in
the documented model is a direct translation of the committed source; the
two models differ in nothing but `_skip_ws`'s return.
-/

namespace SJP

/-- Python's `str.isspace` for the single characters that can occur here:
space, tab, newline, carriage return, vertical tab, form feed, the file
separators and NEL. (Further Unicode spaces also satisfy `isspace`; no
claim depends on them.) -/
def pyIsSpace (c : Char) : Bool :=
  c = ' ' || c = '\t' || c = '\n' || c = '\r' || c = '\x0b' || c = '\x0c' ||
  c = '\x1c' || c = '\x1d' || c = '\x1e' || c = '\x1f' || c = '\x85'

/-- The opening-brace character. -/
def obr : Char := '\x7b'

/-- The closing-brace character. -/
def cbr : Char := '\x7d'

/-- Values of the restricted grammar: strings and (nested) objects.
An object is a Python dict, modelled as an insertion-ordered association
list. -/
inductive JValue where
  | str : List Char → JValue
  | obj : List (List Char × JValue) → JValue

/-- A parsed object: an insertion-ordered association list, as built by
Python dict assignment. -/
abbrev Obj := List (List Char × JValue)

/-- Python dict assignment `m[k] = v`: overwrite in place if the key is
present, append otherwise. -/
def dictInsert (m : Obj) (k : List Char) (v : JValue) : Obj :=
  match m with
  | [] => [(k, v)]
  | (k0, v0) :: rest =>
      if k0 = k then (k0, v) :: rest else (k0, v0) :: dictInsert rest k v

/-- Python truthiness of a string or dict value: empty is falsy.
Used by the `elif value:` guard in `_parse_object`. -/
def jTruthy : JValue → Bool
  | JValue.str cs => !cs.isEmpty
  | JValue.obj m => !m.isEmpty

/-- `self._buffer.find(chr)` for a single character: index of the first
occurrence, `none` for Python's `-1`. -/
def find_open (s : List Char) : Option Nat :=
  match s with
  | [] => none
  | c :: rest => if c = obr then some 0 else (find_open rest).map (· + 1)

/-- The `while i < len(s) and s[i].isspace(): i += 1` loop of `_skip_ws`,
fuel-recursive; it computes the index reached by the loop. -/
def skip_ws_go (s : List Char) : Nat → Nat → Nat
  | 0, i => i
  | fuel + 1, i =>
      if h : i < s.length then
        if pyIsSpace (s.get ⟨i, h⟩) then skip_ws_go s fuel (i + 1) else i
      else i

/-- Documented model of `_skip_ws`: the loop's reached index, which is what
the docstring and the unit test `test_skip_ws_skips_leading_whitespace`
specify the function returns. -/
def skip_ws (s : List Char) (i : Nat) : Nat :=
  skip_ws_go s (s.length + 1) i

/-- Faithful model of the committed `_skip_ws`: the loop runs on a local
variable, and the function then falls off its end with no `return`
statement, so Python returns `None`. -/
def skip_ws_py (s : List Char) (i : Nat) : Option Nat :=
  let _ := skip_ws_go s (s.length + 1) i
  none

/-- The collecting loop of `_read_string`: starting past the opening quote,
consume characters verbatim until a closing quote (no escape handling) or
the end of input. Returns `(value, next_index, completed)`. -/
def read_string_go (s : List Char) : Nat → Nat → List Char → List Char × Nat × Bool
  | 0, i, out => (out, i, false)
  | fuel + 1, i, out =>
      if h : i < s.length then
        let c := s.get ⟨i, h⟩
        if c = '"' then (out, i + 1, true)
        else read_string_go s fuel (i + 1) (out ++ [c])
      else (out, i, false)

/-- `_read_string`: `s[i]` must be a quote; skip it and collect until the
closing quote or end of input. -/
def read_string (s : List Char) (i : Nat) : List Char × Nat × Bool :=
  read_string_go s (s.length + 1) (i + 1) []

/-- The array-skipping loop of `_skip_invalid_value`: bracket depth
tracking, with strings inside arrays skipped via `_read_string` (the
`continue` after the string read does not add one to the index). -/
def skip_array_go (s : List Char) : Nat → Nat → Nat → Nat
  | 0, i, _ => i
  | fuel + 1, i, depth =>
      if h : i < s.length then
        if depth = 0 then i
        else
          let c := s.get ⟨i, h⟩
          if c = '[' then skip_array_go s fuel (i + 1) (depth + 1)
          else if c = ']' then skip_array_go s fuel (i + 1) (depth - 1)
          else if c = '"' then skip_array_go s fuel (read_string s i).2.1 depth
          else skip_array_go s fuel (i + 1) depth
      else i

/-- The scalar-skipping loop of `_skip_invalid_value`:
`while i < len(s) and s[i] not in (',', brace, ' ', tab, newline, cr)`. -/
def skip_scalar_go (s : List Char) : Nat → Nat → Nat
  | 0, i => i
  | fuel + 1, i =>
      if h : i < s.length then
        let c := s.get ⟨i, h⟩
        if c = ',' ∨ c = cbr ∨ c = ' ' ∨ c = '\t' ∨ c = '\n' ∨ c = '\r' then i
        else skip_scalar_go s fuel (i + 1)
      else i

/-- Documented model of `_skip_invalid_value`: skip whitespace, then an
array (depth-counted) or a scalar run. -/
def skip_invalid_value (s : List Char) (i0 : Nat) : Nat :=
  let i := skip_ws s i0
  if h : s.length ≤ i then i
  else
    let c := s.get ⟨i, Nat.lt_of_not_le h⟩
    if c = '[' then skip_array_go s (s.length + 1) (i + 1) 1
    else skip_scalar_go s (s.length + 1) i

/-- The body of `_read_value`, parametrized by the object parser `po` to
invoke at an opening brace (`_parse_object`'s recursive entry, supplied by
`parse_object_go` below so that the mutual recursion of the source becomes
a single fuel recursion). Skip whitespace; end of input gives no value; a
quote reads a string (its completed flag is discarded by the source); a
brace parses a nested object, keeping only its object, next index and
invalid flag; anything else is invalid without consuming. Returns
`(value, next_index, invalid)` — the source returns three elements, the
third of which the caller binds as `invalid`. -/
def read_value_with (s : List Char) (po : Nat → Obj × Nat × Bool × Bool)
    (i : Nat) : Option JValue × Nat × Bool :=
  let j := skip_ws s i
  if hj : s.length ≤ j then (none, j, false)
  else
    let cj := s.get ⟨j, Nat.lt_of_not_le hj⟩
    if cj = '"' then
      match read_string s j with
      | (v, n, _) => (some (JValue.str v), n, false)
    else if cj = obr then
      match po j with
      | (o, n, _, inv) => (some (JValue.obj o), n, inv)
    else (none, j, true)

/-- Lines 195-200 of the source, after `_read_value` has produced
`(value, i, invalid)`: on invalid, skip the invalid construct; otherwise
store `key -> value` when `value` is truthy (Python: not `None` and
non-empty). Returns the updated object and index. -/
def store_pair (s : List Char) (obj : Obj) (key : List Char)
    (rv : Option JValue × Nat × Bool) : Obj × Nat :=
  match rv with
  | (value, i4, invalid) =>
    let i5 := if invalid then skip_invalid_value s i4 else i4
    let obj2 :=
      if invalid then obj
      else
        match value with
        | none => obj
        | some v => if jTruthy v then dictInsert obj key v else obj
    (obj2, i5)

/-- Lines 202-216 of the source: after a pair has been handled, skip
whitespace and look for a comma (with the tolerated trailing comma
immediately before a closing brace), a closing brace, the end of input, or
an unexpected character. `cont` is the `continue` of the `while` loop,
supplied by `parse_object_go` below as its recursive call. -/
def close_step (s : List Char) (cont : Nat → Obj → Obj × Nat × Bool × Bool)
    (obj2 : Obj) (i5 : Nat) : Obj × Nat × Bool × Bool :=
  let i6 := skip_ws s i5
  if hlen6 : s.length ≤ i6 then (obj2, i6, true, false)
  else
    let c6 := s.get ⟨i6, Nat.lt_of_not_le hlen6⟩
    if c6 = ',' then
      let i7 := skip_ws s (i6 + 1)
      if h7 : i7 < s.length then
        if s.get ⟨i7, h7⟩ = cbr then (obj2, i7 + 1, false, false)
        else cont i7 obj2
      else cont i7 obj2
    else if c6 = cbr then (obj2, i6 + 1, false, false)
    else (obj2, i6, true, false)

/-- Documented model of `_parse_object`'s `while True` loop, entered after
the opening brace has been skipped. Returns `(obj, next_index, ended_early,
invalid)`, where `ended_early` is the source's `partial` flag. The value
step is `read_value_with` applied to the recursive parser, the
invalid-skipping/storing step after it is `store_pair`, and the
comma/close dispatch is `close_step` applied to the loop's own recursion.
Fuel exhaustion returns the object so far with the `ended_early` flag, and
never fires for the fuel supplied by `parse_object` because every iteration
and every nesting step advances the index. -/
def parse_object_go (s : List Char) (fuel : Nat) (i0 : Nat) (obj : Obj) :
    Obj × Nat × Bool × Bool :=
  match fuel with
  | 0 => (obj, i0, true, false)
  | fuel + 1 =>
    let i := skip_ws s i0
    if hlen : s.length ≤ i then (obj, i, true, false)
    else
      let c := s.get ⟨i, Nat.lt_of_not_le hlen⟩
      if c = cbr then (obj, i + 1, false, false)
      else if c = ',' then parse_object_go s fuel (i + 1) obj
      else if c ≠ '"' then (obj, i, true, false)
      else
        match read_string s i with
        | (key, i1, kc) =>
          if kc = false then (obj, i1, true, false)
          else
            let i2 := skip_ws s i1
            if hlen2 : s.length ≤ i2 then (obj, i2, true, false)
            else if s.get ⟨i2, Nat.lt_of_not_le hlen2⟩ ≠ ':' then (obj, i2, true, false)
            else
              match store_pair s obj key
                  (read_value_with s (fun j => parse_object_go s fuel (j + 1) [])
                    (i2 + 1)) with
              | (obj2, i5) =>
                close_step s (fun i7 o => parse_object_go s fuel i7 o) obj2 i5

/-- Documented model of `_parse_object`: skip the opening brace and run the
loop starting from the empty object. -/
def parse_object (s : List Char) (i : Nat) (fuel : Nat) : Obj × Nat × Bool × Bool :=
  parse_object_go s fuel (i + 1) []

/-- Documented model of `_read_value`: `read_value_with` invoking
`_parse_object` at an opening brace, exactly as called inside
`parse_object_go`. -/
def read_value (s : List Char) (i : Nat) (fuel : Nat) : Option JValue × Nat × Bool :=
  read_value_with s (fun j => parse_object s j fuel) i

/-- Documented model of `_parse_from`: parse at `start` over the whole
buffer, keeping the object and the invalid flag. The fuel `length + 1`
dominates the number of loop iterations possible over the buffer. -/
def parse_from (buffer : List Char) (start : Nat) : Obj × Bool :=
  let r := parse_object buffer start (buffer.length + 1)
  (r.1, r.2.2.2)

/-- The validity policy of `get` (lines 94-99): on `invalid` the result is
reset to the empty object, otherwise the parsed object is kept. -/
def apply_validity (obj : Obj) (invalid : Bool) : Obj :=
  if invalid then [] else obj

/-- Documented model of `get`: find the first opening brace (empty object
when there is none), parse from it, and apply the validity policy. -/
def get (buffer : List Char) : Obj :=
  match find_open buffer with
  | none => []
  | some start => apply_validity (parse_from buffer start).1 (parse_from buffer start).2

/-- The parser instance's state: the append-only text buffer and the cached
result of the last query. -/
structure ParseState where
  buffer : List Char
  result : Obj

/-- The freshly constructed parser: empty buffer, empty cached result. -/
def initState : ParseState :=
  { buffer := [], result := [] }

/-- `consume`: append the chunk to the buffer; nothing is parsed. -/
def consume (st : ParseState) (chunk : List Char) : ParseState :=
  { st with buffer := st.buffer ++ chunk }

/-- Documented model of `get` acting on the instance state: the branch
without a brace returns the empty object directly (the cached result is not
written there); otherwise the policy result is cached and returned. -/
def get_state (st : ParseState) : Obj × ParseState :=
  match find_open st.buffer with
  | none => ([], st)
  | some start =>
      let r := apply_validity (parse_from st.buffer start).1 (parse_from st.buffer start).2
      (r, { st with result := r })

/-- The exception a query raises: in the committed code, comparing the
`None` returned by `_skip_ws` with an `int` raises `TypeError`. -/
inductive PyErr where
  | typeError
deriving DecidableEq

/-- Assigning `i = self._skip_ws(s, i)` binds `None`; the comparison of `i`
against `len(s)` that immediately follows every such assignment in the
source then raises `TypeError`. -/
def pyWsBind (s : List Char) (i : Nat) : Except PyErr Nat :=
  match skip_ws_py s i with
  | none => Except.error PyErr.typeError
  | some j => Except.ok j

/-- Faithful model of `_skip_invalid_value`: its first statement is
`i = self._skip_ws(s, i)`, so the guard that follows raises. -/
def skip_invalid_value_py (s : List Char) (i0 : Nat) : Except PyErr Nat :=
  match pyWsBind s i0 with
  | Except.error e => Except.error e
  | Except.ok i =>
      if h : s.length ≤ i then Except.ok i
      else
        let c := s.get ⟨i, Nat.lt_of_not_le h⟩
        if c = '[' then Except.ok (skip_array_go s (s.length + 1) (i + 1) 1)
        else Except.ok (skip_scalar_go s (s.length + 1) i)

/-- Faithful model of `_parse_object`'s loop: the same control flow as
`parse_object_go`, with every whitespace skip threaded through `pyWsBind`,
which raises. `_read_value` is inlined at `rv` as in the documented model;
its own leading whitespace skip is the bind on `j`. -/
def parse_object_go_py (s : List Char) (fuel : Nat) (i0 : Nat) (obj : Obj) :
    Except PyErr (Obj × Nat × Bool × Bool) :=
  match fuel with
  | 0 => Except.ok (obj, i0, true, false)
  | fuel + 1 =>
    match pyWsBind s i0 with
    | Except.error e => Except.error e
    | Except.ok i =>
      if hlen : s.length ≤ i then Except.ok (obj, i, true, false)
      else
        let c := s.get ⟨i, Nat.lt_of_not_le hlen⟩
        if c = cbr then Except.ok (obj, i + 1, false, false)
        else if c = ',' then parse_object_go_py s fuel (i + 1) obj
        else if c ≠ '"' then Except.ok (obj, i, true, false)
        else
          let key := (read_string s i).1
          let i1 := (read_string s i).2.1
          if (read_string s i).2.2 = false then Except.ok (obj, i1, true, false)
          else
            match pyWsBind s i1 with
            | Except.error e => Except.error e
            | Except.ok i2 =>
              if hlen2 : s.length ≤ i2 then Except.ok (obj, i2, true, false)
              else if s.get ⟨i2, Nat.lt_of_not_le hlen2⟩ ≠ ':' then
                Except.ok (obj, i2, true, false)
              else
                match pyWsBind s (i2 + 1) with
                | Except.error e => Except.error e
                | Except.ok j =>
                  let rv : Except PyErr (Option JValue × Nat × Bool) :=
                    if hj : s.length ≤ j then Except.ok (none, j, false)
                    else
                      let cj := s.get ⟨j, Nat.lt_of_not_le hj⟩
                      if cj = '"' then
                        Except.ok (some (JValue.str (read_string s j).1),
                          (read_string s j).2.1, false)
                      else if cj = obr then
                        match parse_object_go_py s fuel (j + 1) [] with
                        | Except.error e => Except.error e
                        | Except.ok po =>
                            Except.ok (some (JValue.obj po.1), po.2.1, po.2.2.2)
                      else Except.ok (none, j, true)
                  match rv with
                  | Except.error e => Except.error e
                  | Except.ok rvv =>
                    let value := rvv.1
                    let i4 := rvv.2.1
                    let invalid := rvv.2.2
                    match (if invalid then skip_invalid_value_py s i4
                           else Except.ok i4) with
                    | Except.error e => Except.error e
                    | Except.ok i5 =>
                      let obj2 :=
                        if invalid then obj
                        else
                          match value with
                          | none => obj
                          | some v => if jTruthy v then dictInsert obj key v else obj
                      match pyWsBind s i5 with
                      | Except.error e => Except.error e
                      | Except.ok i6 =>
                        if hlen6 : s.length ≤ i6 then Except.ok (obj2, i6, true, false)
                        else
                          let c6 := s.get ⟨i6, Nat.lt_of_not_le hlen6⟩
                          if c6 = ',' then
                            match pyWsBind s (i6 + 1) with
                            | Except.error e => Except.error e
                            | Except.ok i7 =>
                              if h7 : i7 < s.length then
                                if s.get ⟨i7, h7⟩ = cbr then
                                  Except.ok (obj2, i7 + 1, false, false)
                                else parse_object_go_py s fuel i7 obj2
                              else parse_object_go_py s fuel i7 obj2
                          else if c6 = cbr then Except.ok (obj2, i6 + 1, false, false)
                          else Except.ok (obj2, i6, true, false)

/-- Faithful model of `_parse_object`. -/
def parse_object_py (s : List Char) (i : Nat) (fuel : Nat) :
    Except PyErr (Obj × Nat × Bool × Bool) :=
  parse_object_go_py s fuel (i + 1) []

/-- Faithful model of `_parse_from`. -/
def parse_from_py (buffer : List Char) (start : Nat) : Except PyErr (Obj × Bool) :=
  match parse_object_py buffer start (buffer.length + 1) with
  | Except.error e => Except.error e
  | Except.ok r => Except.ok (r.1, r.2.2.2)

/-- Faithful model of `get`: the branch with no brace in the buffer returns
the empty object without ever calling `_skip_ws`; the parsing branch
propagates the exception. -/
def get_py (buffer : List Char) : Except PyErr Obj :=
  match find_open buffer with
  | none => Except.ok []
  | some start =>
      match parse_from_py buffer start with
      | Except.error e => Except.error e
      | Except.ok r => Except.ok (apply_validity r.1 r.2)

/-- Faithful model of `get` acting on the instance state: a raised exception
leaves the state untouched (the assignment to the cached result is never
reached); the successful branches behave as in the documented model. -/
def get_state_py (st : ParseState) : Except PyErr Obj × ParseState :=
  match find_open st.buffer with
  | none => (Except.ok [], st)
  | some start =>
      match parse_from_py st.buffer start with
      | Except.error e => (Except.error e, st)
      | Except.ok r =>
          let res := apply_validity r.1 r.2
          (Except.ok res, { st with result := res })

/-- Every exit of the comma/close dispatch carries `invalid = false`,
provided the loop continuation does. -/
theorem close_step_invalid (s : List Char) (cont : Nat → Obj → Obj × Nat × Bool × Bool)
    (obj2 : Obj) (i5 : Nat) (hcont : ∀ i o, (cont i o).2.2.2 = false) :
    (close_step s cont obj2 i5).2.2.2 = false := by
  rw [close_step.eq_def]
  dsimp only
  repeat' split
  all_goals first | rfl | exact hcont _ _

/-- Every return statement of `_parse_object`'s loop has `False` as its
invalid component, for every input, index, starting object and fuel. -/
theorem parse_object_go_invalid_false (s : List Char) :
    ∀ fuel i obj, (parse_object_go s fuel i obj).2.2.2 = false := by
  intro fuel
  induction fuel with
  | zero => intro i obj; rfl
  | succ n ih =>
    intro i obj
    rw [parse_object_go.eq_def]
    dsimp only
    repeat' split
    all_goals first
      | rfl
      | exact ih _ _
      | exact close_step_invalid _ _ _ _ (fun i o => ih i o)

/-- Folding `consume` over a list of chunks appends their concatenation to
the buffer and leaves the cached result alone. -/
theorem foldl_consume (parts : List (List Char)) :
    ∀ st : ParseState, List.foldl consume st parts =
      { st with buffer := st.buffer ++ parts.flatten } := by
  induction parts with
  | nil => intro st; simp [List.flatten]
  | cons p rest ih =>
      intro st
      simp [List.foldl, ih, consume, List.flatten, List.append_assoc]

/-- A query in the documented model returns `get` of the buffer. -/
theorem get_state_fst (st : ParseState) : (get_state st).1 = get st.buffer := by
  unfold get_state get
  cases h : find_open st.buffer <;> simp [h]

/-- A query in the documented model never changes the buffer. -/
theorem get_state_buffer (st : ParseState) : (get_state st).2.buffer = st.buffer := by
  unfold get_state
  cases h : find_open st.buffer <;> simp [h]

/-- A query in the faithful model returns `get_py` of the buffer. -/
theorem get_state_py_fst (st : ParseState) : (get_state_py st).1 = get_py st.buffer := by
  unfold get_state_py get_py
  cases h : find_open st.buffer with
  | none => simp [h]
  | some k => cases hp : parse_from_py st.buffer k <;> simp [h, hp]

/-- A query in the faithful model never changes the buffer, whether it
returns or raises. -/
theorem get_state_py_buffer (st : ParseState) :
    (get_state_py st).2.buffer = st.buffer := by
  unfold get_state_py
  cases h : find_open st.buffer with
  | none => simp [h]
  | some k => cases hp : parse_from_py st.buffer k <;> simp [h, hp]

/-! ## Validation of the documented model against the repository's tests

Each example replays one of the unit tests of `test_json_parser.py` (or one
of the spec's stated behaviours) on the documented model. -/

example : get "".data = [] := rfl

example : get "\x7b\x7d".data = [] := rfl

example : get "\x7b".data = [] := rfl

example : get "just a string".data = [] := rfl

example : get "\x7b\"foo\":\"bar\"".data = [("foo".data, JValue.str "bar".data)] := rfl

example : get "\x7b\"foo\": \x7b\"bar\": \"foobar\"\x7d\x7d".data
    = [("foo".data, JValue.obj [("bar".data, JValue.str "foobar".data)])] := rfl

example : get "\x7b\"a\": \x7b\"b\": \"c\", \"d\": \x7b\"e\": \"f\"\x7d\x7d\x7d".data
    = [("a".data, JValue.obj [("b".data, JValue.str "c".data),
        ("d".data, JValue.obj [("e".data, JValue.str "f".data)])])] := rfl

example : get "\x7b\"foo\": \x7b\"bar\": \"baz\"".data
    = [("foo".data, JValue.obj [("bar".data, JValue.str "baz".data)])] := rfl

example : get "\x7b\"foo\": \"bar\",\x7d".data = [("foo".data, JValue.str "bar".data)] := rfl

example : get "\x7b\"foo\": \"bar\"\x7d\x7d".data = [("foo".data, JValue.str "bar".data)] := rfl

example : get "\x7b\"key fcxfgsdf\": \"hello world\"\x7d".data
    = [("key fcxfgsdf".data, JValue.str "hello world".data)] := rfl

example : get "\x7b\"foo\": \"bar\"\x7dbad_json".data
    = [("foo".data, JValue.str "bar".data)] := rfl

example : skip_ws " \n\t\rabc".data 0 = 4 := rfl

example : read_string "\"incomplete".data 0 = ("incomplete".data, 11, false) := rfl

example : read_string "\"complete\"".data 0 = ("complete".data, 10, true) := rfl

example : read_string "\"\"".data 0 = ([], 2, true) := rfl

example : read_value "\"world\"".data 0 10
    = (some (JValue.str "world".data), 7, false) := rfl

example : read_value "\"world".data 0 10
    = (some (JValue.str "world".data), 6, false) := rfl

example : read_value "[1,2,3]".data 0 10 = (none, 0, true) := rfl

example : skip_invalid_value "[1, 2, 3], \"next\": \"value\"\x7d".data 0 = 9 := rfl

example : skip_invalid_value "[1, [2, 3], 4], \"next\": \"value\"\x7d".data 0 = 14 := rfl

example : skip_invalid_value "true, \"next\": \"value\"\x7d".data 0 = 4 := rfl

example : skip_invalid_value "123.456, \"next\": \"value\"\x7d".data 0 = 7 := rfl

example : skip_invalid_value "true\x7d".data 0 = 4 := rfl

example : parse_object "\x7b\"key\": \"value\", \"incomplete\": ".data 0 40
    = ([("key".data, JValue.str "value".data)], 31, true, false) := rfl

example : parse_object "\x7b\"key\": \"value\", \"invalid\": [1, 2, 3]\x7d".data 0 45
    = ([("key".data, JValue.str "value".data)], 38, false, false) := rfl

example : (parse_object "\x7b\"key\":  \x7b\"another\": \"item\"\x7d\x7d".data 0 40).1
    = [("key".data, JValue.obj [("another".data, JValue.str "item".data)])] := rfl

/-! ## The claims -/

/-- C1. The spec says a query never raises and always returns a mapping.
The committed code contradicts it (and its own test
`test_parser_returns_empy_json_for_empty_or_invalid_json`): after
`consume("")` and `consume(brace-pair)`, `get()` raises `TypeError`,
because `_skip_ws` has no `return` statement, so its `None` is compared
against `len(s)` inside `_parse_object`. -/
theorem get_raises_type_error :
    (get_state_py (consume (consume initState "".data) "\x7b\x7d".data)).1
      = Except.error PyErr.typeError := rfl

/-- C2. The spec says `_skip_ws` returns the index of the first
non-whitespace character at or after the input index. The committed
function returns `None` on every input (no `return` statement), while the
loop it runs does reach the index the claim describes — on the repository's
own test input, index 4 from 0, 4 from 4, and the length from the length. -/
theorem skip_ws_returns_none :
    skip_ws_py " \n\t\rabc".data 0 = none ∧ skip_ws " \n\t\rabc".data 0 = 4
      ∧ skip_ws " \n\t\rabc".data 4 = 4 ∧ skip_ws " \n\t\rabc".data 8 = 8 :=
  ⟨rfl, rfl, rfl, rfl⟩

/-- C3. Chunking invariance: consuming any list of chunks one by one and
then querying gives the same outcome — in the faithful model and in the
documented model alike — as consuming their concatenation in one call and
querying, because `consume` only concatenates onto the buffer and a query
is a function of the buffer alone. -/
theorem get_chunking_invariant (parts : List (List Char)) :
    get_state_py (List.foldl consume initState parts)
        = get_state_py (consume initState parts.flatten)
      ∧ get_state (List.foldl consume initState parts)
        = get_state (consume initState parts.flatten) := by
  have h : List.foldl consume initState parts = consume initState parts.flatten := by
    rw [foldl_consume]
    simp [consume, initState]
  rw [h]
  exact ⟨rfl, rfl⟩

/-- C4. The claim (and the repository's tests) say that ingesting the
foo/bar object, whole or in two chunks, yields the corresponding mapping.
The committed code raises `TypeError` on both (the `_skip_ws` bug); the
documented model — the code with `_skip_ws` returning its index — yields
exactly the claimed mapping on both. -/
theorem get_crashes_on_complete_object :
    (get_state_py (consume initState "\x7b\"foo\": \"bar\", \"bar\": \"foobar\"\x7d".data)).1
      = Except.error PyErr.typeError
  ∧ (get_state_py (consume (consume initState "\x7b\"foo\": \"bar\", ".data)
        "\"bar\": \"foobar\"\x7d".data)).1 = Except.error PyErr.typeError
  ∧ (get_state (consume initState "\x7b\"foo\": \"bar\", \"bar\": \"foobar\"\x7d".data)).1
      = [("foo".data, JValue.str "bar".data), ("bar".data, JValue.str "foobar".data)]
  ∧ (get_state (consume (consume initState "\x7b\"foo\": \"bar\", ".data)
        "\"bar\": \"foobar\"\x7d".data)).1
      = [("foo".data, JValue.str "bar".data), ("bar".data, JValue.str "foobar".data)] :=
  ⟨rfl, rfl, rfl, rfl⟩

/-- C5. The claim says the dangling-key input yields only the completed
pair. The committed code raises `TypeError` there (the `_skip_ws` bug); the
documented model yields the claimed mapping, dropping the incomplete key.
The claim's further clause — that an incomplete *value* string is not
stored — contradicts even the documented behaviour: the third conjunct
shows the partial value string stored under its key, exactly as the
repository's test `test_parser_updates_json_correctly` asserts. -/
theorem get_crashes_on_dangling_key :
    (get_state_py (consume initState "\x7b\"test\": \"hello\", \"worl".data)).1
      = Except.error PyErr.typeError
  ∧ (get_state (consume initState "\x7b\"test\": \"hello\", \"worl".data)).1
      = [("test".data, JValue.str "hello".data)]
  ∧ (get_state (consume initState "\x7b\"test\": \"hello\", \"country\": \"Switzerl".data)).1
      = [("test".data, JValue.str "hello".data),
         ("country".data, JValue.str "Switzerl".data)] :=
  ⟨rfl, rfl, rfl⟩

/-- C6. The claim (and the repository's test) say unsupported-value keys
are omitted while valid siblings are retained. The committed code raises
`TypeError` on the claim's input (the `_skip_ws` bug); the documented model
yields exactly the claimed mapping. -/
theorem get_crashes_on_unsupported_values :
    (get_state_py (consume initState
        "\x7b\"key1\": \"value1\", \"key2\": [\"a\",\"b\"], \"key3\": true, \"key4\": \x7b\"nested\":\"x\"\x7d\x7d".data)).1
      = Except.error PyErr.typeError
  ∧ (get_state (consume initState
        "\x7b\"key1\": \"value1\", \"key2\": [\"a\",\"b\"], \"key3\": true, \"key4\": \x7b\"nested\":\"x\"\x7d\x7d".data)).1
      = [("key1".data, JValue.str "value1".data),
         ("key4".data, JValue.obj [("nested".data, JValue.str "x".data)])] :=
  ⟨rfl, rfl⟩

/-- C7. The claim says duplicate keys collapse to one entry with the last
value. The committed code raises `TypeError` on any such input (the
`_skip_ws` bug); the documented model returns the single-entry mapping with
the later value, as Python dict assignment prescribes. -/
theorem get_crashes_on_duplicate_keys :
    (get_state_py (consume initState "\x7b\"a\": \"x\", \"a\": \"y\"\x7d".data)).1
      = Except.error PyErr.typeError
  ∧ (get_state (consume initState "\x7b\"a\": \"x\", \"a\": \"y\"\x7d".data)).1
      = [("a".data, JValue.str "y".data)] :=
  ⟨rfl, rfl⟩

/-- C8. `get`'s validity policy maps any object with `invalid = true` to
the empty object, and a buffer without an opening brace makes the query
return the empty object — in the documented model and, brace-free inputs
never touching `_skip_ws`, in the faithful model as well. -/
theorem get_empty_and_invalid_policy (obj : Obj) (buffer : List Char)
    (h : find_open buffer = none) :
    apply_validity obj true = [] ∧ get buffer = [] ∧ get_py buffer = Except.ok [] := by
  refine ⟨rfl, ?_, ?_⟩
  · unfold get
    rw [h]
  · unfold get_py
    rw [h]

/-- Witness for C8 at a concrete object and a brace-free buffer. -/
theorem get_empty_and_invalid_policy_app :
    apply_validity [("k".data, JValue.str "v".data)] true = []
  ∧ get "abc".data = [] ∧ get_py "abc".data = Except.ok [] :=
  get_empty_and_invalid_policy [("k".data, JValue.str "v".data)] "abc".data rfl

/-- C9. A query never mutates the buffer (in either model, even when it
raises), re-querying without an intervening consume returns the same
outcome (in either model), and consume only appends to the buffer. -/
theorem get_idempotent_buffer_monotone (st : ParseState) (chunk : List Char) :
    (get_state st).2.buffer = st.buffer
  ∧ (get_state_py st).2.buffer = st.buffer
  ∧ (get_state ((get_state st).2)).1 = (get_state st).1
  ∧ (get_state_py ((get_state_py st).2)).1 = (get_state_py st).1
  ∧ (consume st chunk).buffer = st.buffer ++ chunk := by
  refine ⟨get_state_buffer st, get_state_py_buffer st, ?_, ?_, rfl⟩
  · rw [get_state_fst, get_state_fst, get_state_buffer]
  · rw [get_state_py_fst, get_state_py_fst, get_state_py_buffer]

/-- C10. Every return path of the object parser carries `invalid = false`
(for every input, start index and fuel), so whenever the buffer contains an
opening brace, `get` returns exactly the parsed object — the reset branch
for a top-level invalid is unreachable. -/
theorem parse_object_invalid_always_false (s : List Char) (i fuel : Nat)
    (buffer : List Char) (k : Nat) (h : find_open buffer = some k) :
    (parse_object s i fuel).2.2.2 = false
  ∧ get buffer = (parse_from buffer k).1 := by
  constructor
  · exact parse_object_go_invalid_false s fuel (i + 1) []
  · have h2 : (parse_from buffer k).2 = false :=
      parse_object_go_invalid_false buffer (buffer.length + 1) (k + 1) []
    unfold get apply_validity
    rw [h]
    simp [h2]

/-- Witness for C10 at concrete inputs. -/
theorem parse_object_invalid_always_false_app :
    (parse_object "x".data 0 3).2.2.2 = false
  ∧ get "\x7b".data = (parse_from "\x7b".data 0).1 :=
  parse_object_invalid_always_false "x".data 0 3 "\x7b".data 0 rfl

end SJP
